import Mathlib

/-!
Verification development for the `daily_tasker` repository.

Shallow embedding of the data model and operations of:
  - `daily_tasker/config/models.py`   (dataclass configs, `_auto_strip_strings`, `Account`)
  - `daily_tasker/config/adapter.py`  (`AccountsAdapter`, `ConfigAdapter`)
  - `daily_tasker/config/loader.py`   (`resolve_file_path`, `_validate_dict`, `_load_by_extension`)
  - `daily_tasker/core/http_client.py` (`HttpClient`, `_request_with_retry`)
  - `daily_tasker/utils/session_helper.py` (`init_session`)
  - `daily_tasker/core/base_site.py`  (`run_all_tasks`)

Machine strings are modelled as Lean `String`; Python `str.strip` is modelled by
`pyStrip` (structural recursion over the character list, so the kernel can
evaluate it). Python float config values (retry intervals, backoff durations)
are modelled as `ℚ`: the only arithmetic the code performs on them is
multiplication by powers of two, which is exact in both models.
-/

/-! ## String helpers (kernel-evaluable models of Python string methods) -/

/-- Characters of a list with leading and trailing whitespace removed;
the char-level model of Python `str.strip()`. -/
def stripChars (l : List Char) : List Char :=
  ((l.dropWhile Char.isWhitespace).reverse.dropWhile Char.isWhitespace).reverse

/-- Model of Python `str.strip()`. -/
def pyStrip (s : String) : String :=
  ⟨stripChars s.data⟩

/-- Model of Python `str.lower()` (used on file extensions). -/
def pyLower (s : String) : String :=
  ⟨s.data.map Char.toLower⟩

/-- Split a character list on a separator character; model of Python
`str.split(sep)` at the character level. -/
def splitOnChar (sep : Char) : List Char → List (List Char)
  | [] => [[]]
  | c :: cs =>
    let rest := splitOnChar sep cs
    if c = sep then [] :: rest
    else
      match rest with
      | [] => [[c]]
      | seg :: segs => (c :: seg) :: segs

/-- Split a character list at the first occurrence of the character.
Returns `none` when the character does not occur. -/
def splitFirstAt (sep : Char) : List Char → Option (List Char × List Char)
  | [] => none
  | c :: cs =>
    if c = sep then some ([], cs)
    else (splitFirstAt sep cs).map (fun pr => (c :: pr.1, pr.2))

/-! ## Cookie resolver

`daily_tasker/utils/cookies.py` is not among the source files under `src/`;
only its caller (`Account.__post_init__` in `config/models.py`) is. The
resolver is therefore modelled from the spec. -/

/-- Raw cookie representation: an already-structured mapping or a single
`;`-delimited string of `key=value` pairs (spec section 4.1). -/
inductive RawCookies
  | str (s : String)
  | mapping (m : List (String × String))
deriving DecidableEq, Repr

/-- Modelled from the spec: one segment of a `;`-delimited cookie string.
Malformed entries (missing `=`, empty segments) are skipped, not fatal. -/
def parseCookiePair (seg : List Char) : Option (String × String) :=
  let seg2 := stripChars seg
  if seg2.isEmpty then none
  else
    match splitFirstAt '=' seg2 with
    | none => none
    | some (k, v) => some (⟨stripChars k⟩, ⟨stripChars v⟩)

/-- Modelled from the spec: `daily_tasker.utils.cookies.resolve_cookies` is not
under `src/`. Contract (spec section 4.1): an already-structured mapping is
produced unchanged; a `;`-delimited string of `key=value` pairs is parsed into
a string mapping; malformed entries are skipped; empty input yields an empty
mapping; the function is total (never an error). -/
def resolve_cookies : RawCookies → List (String × String)
  | .mapping m => m
  | .str s => (splitOnChar ';' s.data).filterMap parseCookiePair

/-! ## Dynamic values and the generic dataclass model (`config/models.py`,
`config/adapter.py`) -/

/-- A loosely-typed configuration value, as found in a parsed TOML/JSON
document (Python `Any`). -/
inductive Value
  | vstr (s : String)
  | vint (n : ℤ)
  | vnum (q : ℚ)
  | vbool (b : Bool)
deriving DecidableEq, Repr

/-- A Python `dict[str, Any]`, modelled as an association list with the usual
first-match lookup (dict keys are unique, so first-match agrees with dict
lookup). -/
abbrev RawMap := List (String × Value)

/-- Dictionary lookup (`d.get(k)` / `d[k]`). -/
def lookupKV (m : RawMap) (k : String) : Option Value :=
  (m.find? (fun kv => decide (kv.1 = k))).map Prod.snd

/-- The static description of one `@dataclass` config record:
its class name, its fields with their declared defaults (in declaration
order), and whether its `__post_init__` calls `_auto_strip_strings`. -/
structure DataclassSpec where
  name : String
  fieldsList : List (String × Value)
  autoStrip : Bool

/-- The known field names of a dataclass (`{f.name for f in fields(cls)}`). -/
def validKeys (spec : DataclassSpec) : List String :=
  spec.fieldsList.map Prod.fst

/-- `_auto_strip_strings` acting on one field value: string values are
whitespace-stripped, all other values are untouched (`isinstance(value, str)`
guard in `config/models.py`). -/
def stripValue : Value → Value
  | .vstr s => .vstr (pyStrip s)
  | v => v

/-- Post-construction normalization of one field value: `stripValue` when the
class runs `_auto_strip_strings` in `__post_init__`, identity otherwise
(`DebugConfig` has no `__post_init__`). -/
def applyStrip (spec : DataclassSpec) (v : Value) : Value :=
  if spec.autoStrip then stripValue v else v

/-- Constructing a dataclass record from keyword arguments: every declared
field takes its supplied value, or its declared default when absent, and then
`__post_init__` normalization is applied. For `RequesterConfig` and
`TaskerConfig` every field is an `init` field that is set before
`_auto_strip_strings` runs, so the per-field model is faithful. -/
def mkDataclass (spec : DataclassSpec) (args : RawMap) : RawMap :=
  spec.fieldsList.map (fun fd => (fd.1, applyStrip spec ((lookupKV args fd.1).getD fd.2)))

/-- `RequesterConfig` from `config/models.py` (fields and defaults verbatim;
`__post_init__` calls `_auto_strip_strings`). -/
def requesterSpec : DataclassSpec where
  name := "RequesterConfig"
  fieldsList :=
    [("user_agent", .vstr ""), ("request_interval", .vnum 5),
     ("retry_times", .vint 3), ("retry_interval", .vnum 5),
     ("timeout", .vnum 30), ("headless", .vbool true),
     ("user_data_folder", .vstr ""), ("profile_name", .vstr ""),
     ("auto_close", .vbool true), ("disable_images", .vbool true),
     ("mute_audio", .vbool true)]
  autoStrip := true

/-- `TaskerConfig` from `config/models.py`. -/
def taskerSpec : DataclassSpec where
  name := "TaskerConfig"
  fieldsList :=
    [("parallel", .vbool false), ("max_workers", .vint 5),
     ("save_results", .vbool false), ("results_path", .vstr "results/"),
     ("generate_report", .vbool false)]
  autoStrip := true

/-- `DebugConfig` from `config/models.py` (no `__post_init__`). -/
def debugSpec : DataclassSpec where
  name := "DebugConfig"
  fieldsList := [("log_level", .vstr "INFO")]
  autoStrip := false

/-- Constructing a `RequesterConfig` from keyword arguments. -/
def RequesterConfig (args : RawMap) : RawMap :=
  mkDataclass requesterSpec args

/-- Constructing a `TaskerConfig` from keyword arguments. -/
def TaskerConfig (args : RawMap) : RawMap :=
  mkDataclass taskerSpec args

/-- Constructing a `DebugConfig` from keyword arguments. -/
def DebugConfig (args : RawMap) : RawMap :=
  mkDataclass debugSpec args

/-- The warning emitted by `ConfigAdapter._filter_dataclass_args`
(`logger.warning` naming the class and the ignored keys). -/
structure ConfigWarning where
  cls : String
  unknownKeys : List String
deriving DecidableEq, Repr

/-- `ConfigAdapter._filter_dataclass_args` from `config/adapter.py`: keep the
keys that are field names of the class, and emit one warning listing the
discarded key names when there are any (`extra_keys` is a Python set; `dedup`
models the set, keeping first-occurrence order). -/
def _filter_dataclass_args (spec : DataclassSpec) (config : RawMap) :
    RawMap × List ConfigWarning :=
  let filtered := config.filter (fun kv => decide (kv.1 ∈ validKeys spec))
  let extra := ((config.map Prod.fst).filter (fun k => decide (k ∉ validKeys spec))).dedup
  (filtered, if extra.isEmpty then [] else [⟨spec.name, extra⟩])

/-- The common body of `ConfigAdapter.get_requester_config` /
`get_tasker_config` / `get_debug_config`: filter the raw sub-mapping and
construct the record from the surviving keys. -/
def buildConfig (spec : DataclassSpec) (args : RawMap) : RawMap × List ConfigWarning :=
  (mkDataclass spec (_filter_dataclass_args spec args).1,
   (_filter_dataclass_args spec args).2)

/-- `ConfigAdapter.get_requester_config`, applied to the already-extracted
`raw["global"]["requests"]` sub-mapping. -/
def get_requester_config (req : RawMap) : RawMap × List ConfigWarning :=
  buildConfig requesterSpec req

/-- `ConfigAdapter.get_tasker_config`, applied to `raw["global"]["runtime"]`. -/
def get_tasker_config (rt : RawMap) : RawMap × List ConfigWarning :=
  buildConfig taskerSpec rt

/-- `ConfigAdapter.get_debug_config`, applied to `raw["global"]["debug"]`. -/
def get_debug_config (dbg : RawMap) : RawMap × List ConfigWarning :=
  buildConfig debugSpec dbg

/-! ## The `Account` dataclass (`config/models.py`) and `AccountsAdapter`
(`config/adapter.py`)

`Account` declares `cookies: dict[str, str] = field(init=False)` with no
default, and its `__post_init__` runs `_auto_strip_strings(self)` *before*
assigning `self.cookies`. `dataclasses` deletes the class attribute of a
defaultless `init=False` field, so `getattr(instance, "cookies")` raises
`AttributeError` at that point. The embedding models the partially-initialized
object and the dynamic `getattr`/`setattr` field iteration faithfully. -/

/-- A dynamic Python value as stored in an `Account` field: a string, `None`
(from `dict.get` on a missing key), or a string-to-string mapping. -/
inductive PyVal
  | vstr (s : String)
  | pyNone
  | strMap (m : List (String × String))
deriving DecidableEq, Repr

/-- Python exceptions surfaced by the accounts machinery. -/
inductive PyError
  | attributeError (name : String)
  | keyError (key : String)
deriving DecidableEq, Repr

/-- The state of an `Account` object during `__post_init__`: the three `init`
fields are assigned; `cookies` (`init=False`, no default) is unset (`none`)
until `__post_init__` assigns it. -/
structure AccountObj where
  username : PyVal
  password : PyVal
  raw_cookies : PyVal
  cookies : Option (List (String × String))
deriving DecidableEq, Repr

/-- The dataclass fields of `Account`, in declaration order
(what `dataclasses.fields(instance)` iterates over). -/
def Account.fieldNames : List String :=
  ["username", "password", "raw_cookies", "cookies"]

/-- `getattr(instance, name)` on an `Account` object: reading the unset
`cookies` field raises `AttributeError`. -/
def Account.getattr (a : AccountObj) (name : String) : Except PyError PyVal :=
  if name = "username" then .ok a.username
  else if name = "password" then .ok a.password
  else if name = "raw_cookies" then .ok a.raw_cookies
  else if name = "cookies" then
    match a.cookies with
    | some m => .ok (.strMap m)
    | none => .error (.attributeError "cookies")
  else .error (.attributeError name)

/-- `setattr(instance, name, s)` for a string value (the only kind
`_auto_strip_strings` ever writes back). -/
def Account.setattrStr (a : AccountObj) (name : String) (s : String) : AccountObj :=
  if name = "username" then { a with username := .vstr s }
  else if name = "password" then { a with password := .vstr s }
  else if name = "raw_cookies" then { a with raw_cookies := .vstr s }
  else a

/-- `_auto_strip_strings` from `config/models.py`, acting on an `Account`
object: iterate over all dataclass fields, read each with `getattr`, and strip
the value back in when it is a string. -/
def _auto_strip_strings (a : AccountObj) : Except PyError AccountObj :=
  Account.fieldNames.foldlM
    (fun acc name => do
      let v ← Account.getattr acc name
      match v with
      | .vstr s => pure (Account.setattrStr acc name (pyStrip s))
      | _ => pure acc)
    a

/-- Adapt a dynamic `raw_cookies` field value to the resolver's input type:
a string is a delimited cookie string, a mapping is passed through, and `None`
is treated as absent input (empty mapping). -/
def PyVal.toRawCookies : PyVal → RawCookies
  | .vstr s => .str s
  | .strMap m => .mapping m
  | .pyNone => .mapping []

/-- `Account(username=..., password=..., raw_cookies=...)` from
`config/models.py`: field assignment, then `__post_init__`, which first runs
`_auto_strip_strings(self)` and only then assigns
`self.cookies = resolve_cookies(self.raw_cookies)`. -/
def Account.make (username password raw_cookies : PyVal) : Except PyError AccountObj := do
  let a0 : AccountObj :=
    { username := username, password := password,
      raw_cookies := raw_cookies, cookies := none }
  let a1 ← _auto_strip_strings a0
  pure { a1 with cookies := some (resolve_cookies a1.raw_cookies.toRawCookies) }

/-- One raw account entry of the accounts document
(`data` in `AccountsAdapter.parse`). -/
structure RawAccountData where
  username : Option String
  password : Option String
  cookies : Option PyVal
deriving DecidableEq, Repr

/-- `data.get("username")`: `None` when the key is absent. -/
def RawAccountData.getUsername (d : RawAccountData) : PyVal :=
  match d.username with
  | some s => .vstr s
  | none => .pyNone

/-- `data.get("password")`: `None` when the key is absent. -/
def RawAccountData.getPassword (d : RawAccountData) : PyVal :=
  match d.password with
  | some s => .vstr s
  | none => .pyNone

/-- `data.get("cookies", {})`: empty mapping when the key is absent. -/
def RawAccountData.getCookies (d : RawAccountData) : PyVal :=
  d.cookies.getD (.strMap [])

/-- One raw site block (`site_block` in `AccountsAdapter.parse`);
`accounts` is `none` when the `"accounts"` key is absent. -/
structure RawSiteBlock where
  accounts : Option (List (String × RawAccountData))
deriving DecidableEq, Repr

/-- The two-level parsed registry: site name to account key to `Account`. -/
abbrev Registry := List (String × List (String × AccountObj))

/-- The inner loop of `AccountsAdapter.parse` over one site's accounts block:
construct an `Account` per entry, in order; the first raised exception
propagates. -/
def parseAccountsBlock : List (String × RawAccountData) → Except PyError (List (String × AccountObj))
  | [] => pure []
  | (key, data) :: rest => do
    let acct ← Account.make data.getUsername data.getPassword data.getCookies
    let tail ← parseAccountsBlock rest
    pure ((key, acct) :: tail)

/-- The `AccountsAdapter` instance state: the raw nested document and the
mutable cache (`self._raw`, `self._cache`). -/
structure AccountsAdapter where
  raw : List (String × RawSiteBlock)
  cache : Registry
deriving DecidableEq, Repr

/-- The outer loop of `AccountsAdapter.parse`: sites are parsed in order and
added to the cache one at a time (`self._cache[site_name] = parsed`); when a
site raises, the sites already added remain in the cache and the exception
propagates. Returns the cache state and the exception, if any. -/
def AccountsAdapter.parseLoop (cache : Registry) :
    List (String × RawSiteBlock) → Registry × Option PyError
  | [] => (cache, none)
  | (site, block) :: rest =>
    match parseAccountsBlock (block.accounts.getD []) with
    | .error e => (cache, some e)
    | .ok parsed => AccountsAdapter.parseLoop (cache ++ [(site, parsed)]) rest

/-- `AccountsAdapter.parse` from `config/adapter.py`: `if self._cache: return
self._cache` (dict truthiness, i.e. non-emptiness), else parse every site and
return the cache. Returns the call's result together with the adapter state
after the call. -/
def AccountsAdapter.parse (ad : AccountsAdapter) :
    Except PyError Registry × AccountsAdapter :=
  if ad.cache.isEmpty then
    match AccountsAdapter.parseLoop ad.cache ad.raw with
    | (c, none) => (.ok c, { ad with cache := c })
    | (c, some e) => (.error e, { ad with cache := c })
  else (.ok ad.cache, ad)

/-! ## Config loader (`config/loader.py`) -/

/-- The ambient filesystem, abstracted: which paths are existing regular
files, the current working directory, and the
`Path(p).expanduser().resolve()` normalization. -/
structure FileSystem where
  is_file : String → Bool
  cwd : String
  expandResolve : String → String

/-- `resolve_file_path` from `config/loader.py`: user-supplied path first
(skipped when `None` or empty, Python truthiness), then
`Path.cwd() / local_filename`, then the fallback path, else `None`. -/
def resolve_file_path (fs : FileSystem) (user_path : Option String)
    (local_filename : String) (fallback_path : String) : Option String :=
  let rest :=
    let local_path := fs.cwd ++ "/" ++ local_filename
    if fs.is_file local_path then some local_path
    else if fs.is_file fallback_path then some fallback_path
    else none
  match user_path with
  | none => rest
  | some s =>
    if s = "" then rest
    else
      let p := fs.expandResolve s
      if fs.is_file p then some p else rest

/-- The candidate a given user path denotes: absent when the argument is
`None` or empty (falsy), otherwise the expanded, resolved path. -/
def userCandidate (fs : FileSystem) (user_path : Option String) : Option String :=
  match user_path with
  | none => none
  | some s => if s = "" then none else some (fs.expandResolve s)

/-- The spec's statement of the three-tier lookup (spec section 4.2 /
testable property "Path priority"), written independently of
`resolve_file_path` for comparison with it. -/
def resolveFilePathSpec (fs : FileSystem) (user_path : Option String)
    (local_filename : String) (fallback_path : String) : Option String :=
  match userCandidate fs user_path with
  | some p =>
    if fs.is_file p then some p
    else if fs.is_file (fs.cwd ++ "/" ++ local_filename) then
      some (fs.cwd ++ "/" ++ local_filename)
    else if fs.is_file fallback_path then some fallback_path
    else none
  | none =>
    if fs.is_file (fs.cwd ++ "/" ++ local_filename) then
      some (fs.cwd ++ "/" ++ local_filename)
    else if fs.is_file fallback_path then some fallback_path
    else none

/-- A filesystem path as the loader sees it; `suffix` is `pathlib`'s
`Path.suffix` (the final extension, dot included). -/
structure PyPath where
  suffix : String
deriving DecidableEq, Repr

/-- The top-level shape of a parsed config document: a mapping, or anything
else. -/
inductive Parsed
  | dict (d : RawMap)
  | nondict
deriving DecidableEq, Repr

/-- The JSON/TOML parsers, abstracted: what each parser yields for each
path's contents. -/
structure ParserEnv where
  parseJson : PyPath → Parsed
  parseToml : PyPath → Parsed

/-- Errors raised by `_load_by_extension`. -/
inductive LoadError
  | valueError (msg : String)
deriving DecidableEq, Repr

/-- `_validate_dict` from `config/loader.py`: a non-mapping top-level value
becomes an empty mapping with a logged warning (the `Bool` records whether the
warning was logged), never an error. -/
def _validate_dict : Parsed → RawMap × Bool
  | .dict d => (d, false)
  | .nondict => ([], true)

/-- `_load_by_extension` from `config/loader.py`: dispatch on the lowercased
file extension; `.json` and `.toml` are parsed and validated; any other
extension raises `ValueError`. -/
def _load_by_extension (env : ParserEnv) (p : PyPath) :
    Except LoadError (RawMap × Bool) :=
  let ext := pyLower p.suffix
  if ext = ".json" then .ok (_validate_dict (env.parseJson p))
  else if ext = ".toml" then .ok (_validate_dict (env.parseToml p))
  else .error (.valueError ("Unsupported config file extension: " ++ ext))

/-! ## HTTP client (`core/http_client.py`, `utils/session_helper.py`)

An attempt oracle `attempt : ℕ → Except RequestError Response` gives the
outcome of the transport call of each zero-based attempt (the call through
`requests.Session`, which internally applies the session-level `Retry`
policy). `raise_for_status` is applied to a returned response, and the
explicit loop of `_request_with_retry` drives the attempts. -/

/-- A `requests.Response`, reduced to what the retry logic inspects. -/
structure Response where
  status : ℕ
deriving DecidableEq, Repr

/-- A `requests.RequestException`: a transport failure or the `HTTPError`
raised by `raise_for_status`. -/
inductive RequestError
  | connectionError
  | timeoutError
  | httpError (status : ℕ)
deriving DecidableEq, Repr

/-- `Response.raise_for_status`: raises `HTTPError` for 4xx/5xx status codes,
returns the response otherwise. -/
def raise_for_status (resp : Response) : Except RequestError Response :=
  if 400 ≤ resp.status ∧ resp.status < 600 then .error (.httpError resp.status)
  else .ok resp

/-- One loop iteration's try-body: the transport call followed by
`resp.raise_for_status()`. -/
def attemptOnce (attempt : ℕ → Except RequestError Response) (i : ℕ) :
    Except RequestError Response :=
  (attempt i).bind raise_for_status

/-- How `_request_with_retry` exits: a returned response, a re-raised
`RequestException`, or the trailing `RuntimeError` after the loop. -/
inductive RetryOutcome
  | success (resp : Response)
  | requestError (e : RequestError)
  | runtimeError
deriving DecidableEq, Repr

/-- The observable behavior of one `_request_with_retry` call: how it exited,
the `time.sleep` backoff durations in order, and how many attempts it made. -/
structure RetryResult where
  outcome : RetryOutcome
  sleeps : List ℚ
  attempts : ℕ
deriving DecidableEq, Repr

/-- The `for attempt in range(retry_times + 1)` loop of
`_request_with_retry`: `i` is the current zero-based attempt index, `fuel` the
number of loop iterations left. On an exception with `attempt < retry_times`
the loop sleeps `retry_interval * 2 ** attempt` and continues; on the last
attempt it re-raises; falling off the loop is the trailing `RuntimeError`. -/
def retryLoop (retry_times : ℤ) (retry_interval : ℚ)
    (attempt : ℕ → Except RequestError Response) : ℕ → ℕ → RetryResult
  | _, 0 => ⟨.runtimeError, [], 0⟩
  | i, fuel + 1 =>
    match attemptOnce attempt i with
    | .ok resp => ⟨.success resp, [], 1⟩
    | .error e =>
      if (i : ℤ) < retry_times then
        let rest := retryLoop retry_times retry_interval attempt (i + 1) fuel
        ⟨rest.outcome, retry_interval * 2 ^ i :: rest.sleeps, rest.attempts + 1⟩
      else ⟨.requestError e, [], 1⟩

/-- `HttpClient._request_with_retry` from `core/http_client.py`:
`range(retry_times + 1)` yields `max(retry_times + 1, 0)` iterations starting
at attempt `0`. -/
def _request_with_retry (retry_times : ℤ) (retry_interval : ℚ)
    (attempt : ℕ → Except RequestError Response) : RetryResult :=
  retryLoop retry_times retry_interval attempt 0 (retry_times + 1).toNat

/-- The retry-relevant configuration of an `HttpClient`
(`config.retry_times`, `config.retry_interval`). -/
structure HttpClient where
  retry_times : ℤ
  retry_interval : ℚ
deriving DecidableEq, Repr

/-- `HttpClient.get` from `core/http_client.py`: the body is
`self._request_with_retry("get", url, params=params, **kwargs)` — the same
explicit application-level retry loop the unsafe verbs use. -/
def HttpClient.get (c : HttpClient) (attempt : ℕ → Except RequestError Response) :
    RetryResult :=
  _request_with_retry c.retry_times c.retry_interval attempt

/-- `HttpClient.post`: dispatches through `_request_with_retry`. -/
def HttpClient.post (c : HttpClient) (attempt : ℕ → Except RequestError Response) :
    RetryResult :=
  _request_with_retry c.retry_times c.retry_interval attempt

/-- `HttpClient.put`: dispatches through `_request_with_retry`. -/
def HttpClient.put (c : HttpClient) (attempt : ℕ → Except RequestError Response) :
    RetryResult :=
  _request_with_retry c.retry_times c.retry_interval attempt

/-- `HttpClient.patch`: dispatches through `_request_with_retry`. -/
def HttpClient.patch (c : HttpClient) (attempt : ℕ → Except RequestError Response) :
    RetryResult :=
  _request_with_retry c.retry_times c.retry_interval attempt

/-- `HttpClient.delete`: dispatches through `_request_with_retry`. -/
def HttpClient.delete (c : HttpClient) (attempt : ℕ → Except RequestError Response) :
    RetryResult :=
  _request_with_retry c.retry_times c.retry_interval attempt

/-- The `urllib3.util.Retry` strategy built by `init_session`. -/
structure RetryPolicy where
  total : ℤ
  backoff_factor : ℚ
  status_forcelist : List ℕ
  allowed_methods : List String
deriving DecidableEq, Repr

/-- A `requests.Session`, reduced to the retry strategy mounted on it. -/
structure Session where
  retry : RetryPolicy
deriving DecidableEq, Repr

/-- `init_session` from `utils/session_helper.py`: the session-level
transport retry policy — `retry_times` total retries, backoff factor
`retry_interval`, status allow-list `{429, 500, 502, 503, 504}`, allowed
methods `HEAD`/`GET`/`OPTIONS`. -/
def init_session (retry_times : ℤ) (retry_interval : ℚ) : Session :=
  { retry :=
    { total := retry_times
      backoff_factor := retry_interval
      status_forcelist := [429, 500, 502, 503, 504]
      allowed_methods := ["HEAD", "GET", "OPTIONS"] } }

/-! ## Task runner (`core/base_site.py`) -/

/-- `BaseSite.run_all_tasks`: run every step of the task sequence in order on
the calling thread; a raised error propagates immediately and aborts the
remaining sequence. A step is modelled as a state transformer that may raise. -/
def run_all_tasks {σ ε : Type} : List (σ → Except ε σ) → σ → Except ε σ
  | [], s => .ok s
  | t :: ts, s =>
    match t s with
    | .error e => .error e
    | .ok s2 => run_all_tasks ts s2

/-! ## Theorems -/

/-- Every `Account(...)` construction in this source raises `AttributeError`:
`_auto_strip_strings` reads the `init=False` field `cookies` before
`__post_init__` has assigned it. -/
theorem Account_make_raises (u p rc : PyVal) :
    Account.make u p rc = Except.error (PyError.attributeError "cookies") := by
  cases u <;> cases p <;> cases rc <;> rfl

/-- C5: The cookie resolver maps an already-structured mapping to itself
unchanged, maps a `;`-delimited string of `key=value` pairs to the
corresponding string mapping (`"a=1; b=2"` to `a ↦ 1, b ↦ 2`), skips
malformed entries (missing `=`, empty segments), and maps empty input (empty
string or empty mapping) to an empty mapping; being a total Lean function it
never raises. -/
theorem C5_cookie_resolver_contract :
    (∀ m : List (String × String), resolve_cookies (.mapping m) = m)
    ∧ resolve_cookies (.str "a=1; b=2") = [("a", "1"), ("b", "2")]
    ∧ resolve_cookies (.str "") = []
    ∧ resolve_cookies (.mapping []) = []
    ∧ resolve_cookies (.str "a=1; noequalsign; ; b=2") = [("a", "1"), ("b", "2")] :=
  ⟨fun _ => rfl, by decide, by decide, rfl, by decide⟩

/-- C1: contrary to the claim, `HttpClient.get` dispatches through the
explicit application-level retry loop `_request_with_retry`, exactly as
POST/PUT/PATCH/DELETE do: a GET whose transport attempts all fail performs
application-level backoff sleeps and repeated attempts (here `retry_times = 1`,
`retry_interval = 1`: two attempts with one 1-second sleep between them). The
session-level policy of `init_session` does allow GET on the status
allow-list, as the claim states, but the code does not rely on it *solely*. -/
theorem C1_get_uses_explicit_retry_loop :
    (init_session 1 1).retry.allowed_methods = ["HEAD", "GET", "OPTIONS"]
    ∧ (init_session 1 1).retry.status_forcelist = [429, 500, 502, 503, 504]
    ∧ HttpClient.get ⟨1, 1⟩ (fun _ => Except.error RequestError.connectionError)
        = ⟨RetryOutcome.requestError RequestError.connectionError, [1], 2⟩
    ∧ (HttpClient.get ⟨1, 1⟩ (fun _ => Except.error RequestError.connectionError)).sleeps ≠ [] := by
  refine ⟨rfl, rfl, ?_, ?_⟩ <;>
    norm_num [HttpClient.get, _request_with_retry, retryLoop, attemptOnce,
      Except.bind]

/-- The raw accounts document of C4's failing input: one site with one
account. -/
def C4rawCrash : List (String × RawSiteBlock) :=
  [("siteA", ⟨some [("u1", ⟨some "a", some "b", some (.vstr "x=1")⟩)]⟩)]

/-- A mutated raw accounts document: one site whose accounts block is empty. -/
def C4rawEmptySite : List (String × RawSiteBlock) :=
  [("siteA", ⟨some []⟩)]

/-- C4: the claim fails on this code in two ways. (1) For any raw document
containing at least one account, the first `parse()` raises `AttributeError`
(`Account.__post_init__` runs `_auto_strip_strings` over the unset
`init=False` field `cookies`), so no registry is ever built. (2) When the
registry parses to an empty dict, `if self._cache:` is falsy, so a second
`parse()` re-parses the (mutated) raw document and returns a different
registry rather than the first call's cached result. -/
theorem C4_parse_not_cached_once :
    (AccountsAdapter.parse ⟨C4rawCrash, []⟩).1
        = Except.error (PyError.attributeError "cookies")
    ∧ (AccountsAdapter.parse ⟨[], []⟩).1 = Except.ok []
    ∧ (AccountsAdapter.parse ⟨[], []⟩).2.cache = []
    ∧ (AccountsAdapter.parse
        ⟨C4rawEmptySite, (AccountsAdapter.parse ⟨[], []⟩).2.cache⟩).1
        = Except.ok [("siteA", [])] :=
  ⟨rfl, rfl, rfl, rfl⟩

/-- Running a concatenated task sequence runs the prefix first and continues
with the suffix only when the prefix succeeded. -/
theorem run_all_tasks_append {σ ε : Type} (xs ys : List (σ → Except ε σ)) (s : σ) :
    run_all_tasks (xs ++ ys) s
      = (run_all_tasks xs s).bind (fun s2 => run_all_tasks ys s2) := by
  induction xs generalizing s with
  | nil => rfl
  | cons t ts ih =>
    rw [List.cons_append]
    cases h : t s with
    | error e => simp [run_all_tasks, h, Except.bind]
    | ok s2 => simp [run_all_tasks, h, Except.bind, ih]

/-- C7: `run_all_tasks` executes the steps in declaration order; if a step
raises after a successful prefix, the raised error propagates to the caller
unchanged and no later step is executed (the result does not depend on the
steps after the raising one). -/
theorem C7_fail_fast {σ ε : Type} (pre post : List (σ → Except ε σ))
    (t : σ → Except ε σ) (s s2 : σ) (e : ε)
    (h1 : run_all_tasks pre s = .ok s2) (h2 : t s2 = .error e) :
    run_all_tasks (pre ++ t :: post) s = .error e
    ∧ ∀ post2 : List (σ → Except ε σ),
        run_all_tasks (pre ++ t :: post) s = run_all_tasks (pre ++ t :: post2) s := by
  have key : ∀ q : List (σ → Except ε σ),
      run_all_tasks (pre ++ t :: q) s = .error e := by
    intro q
    rw [run_all_tasks_append, h1]
    show run_all_tasks (t :: q) s2 = _
    simp [run_all_tasks, h2]
  exact ⟨key post, fun post2 => (key post).trans (key post2).symm⟩

/-- Witness for C7: three steps over a trace state; step 1 appends `1`,
step 2 raises `"boom"`, step 3 would append `3`; the run raises `"boom"`. -/
theorem C7_fail_fast_witness :
    run_all_tasks
      [fun s => Except.ok (s ++ [1]), fun _ => Except.error "boom",
       fun s => Except.ok (s ++ [3])] ([] : List ℕ) = Except.error "boom" :=
  (C7_fail_fast [fun s => Except.ok (s ++ [1])] [fun s => Except.ok (s ++ [3])]
    (fun _ => Except.error "boom") [] [1] "boom" rfl rfl).1

/-- C3: `resolve_file_path` implements exactly the three-tier priority the
claim states: the user-supplied path when given (non-empty) and an existing
regular file, else the local working-directory file when it exists, else the
fallback path when it exists, else no path. -/
theorem C3_resolve_file_path_matches_spec (fs : FileSystem)
    (user_path : Option String) (local_filename fallback_path : String) :
    resolve_file_path fs user_path local_filename fallback_path
      = resolveFilePathSpec fs user_path local_filename fallback_path := by
  cases user_path with
  | none => rfl
  | some s =>
    by_cases hs : s = ""
    · simp [resolve_file_path, resolveFilePathSpec, userCandidate, hs]
    · simp [resolve_file_path, resolveFilePathSpec, userCandidate, hs]

/-- When every attempt up to `n` fails, the retry loop entered at attempt `i`
with the loop's remaining iterations runs them all, sleeps `r * 2 ^ j` after
each failed attempt `j` except the last, and re-raises the final attempt's
failure. -/
theorem retryLoop_all_fail (n : ℕ) (r : ℚ)
    (attempt : ℕ → Except RequestError Response) (es : ℕ → RequestError)
    (h : ∀ i, i ≤ n → attemptOnce attempt i = .error (es i)) :
    ∀ fuel i, i + fuel = n + 1 → i ≤ n →
      retryLoop (n : ℤ) r attempt i fuel
        = ⟨.requestError (es n), (List.range' i (n - i)).map (fun j => r * 2 ^ j), fuel⟩ := by
  intro fuel
  induction fuel with
  | zero => intro i h1 h2; omega
  | succ fuel ih =>
    intro i h1 h2
    simp only [retryLoop, h i h2]
    by_cases hlt : i < n
    · have hlt2 : ((i : ℤ) < (n : ℤ)) := by exact_mod_cast hlt
      rw [if_pos hlt2, ih (i + 1) (by omega) (by omega)]
      have hr : n - i = (n - (i + 1)) + 1 := by omega
      rw [hr, List.range'_succ]
      simp
    · have hin : i = n := by omega
      have hlt2 : ¬ ((i : ℤ) < (n : ℤ)) := by exact_mod_cast hlt
      rw [if_neg hlt2]
      have hf : fuel = 0 := by omega
      subst hin hf
      simp [Nat.sub_self]

/-- C2: with `retry_times = n ≥ 0` and `retry_interval = r`, a request
dispatched through `_request_with_retry` on which every attempt fails makes
exactly `n + 1` attempts, sleeps `r * 2 ^ attempt` after each failed attempt
except the last (zero-based), and re-raises the failure of the final
attempt. -/
theorem C2_retry_exhaustion (n : ℕ) (r : ℚ)
    (attempt : ℕ → Except RequestError Response) (es : ℕ → RequestError)
    (h : ∀ i, i ≤ n → attemptOnce attempt i = .error (es i)) :
    _request_with_retry (n : ℤ) r attempt
      = ⟨.requestError (es n), (List.range n).map (fun j => r * 2 ^ j), n + 1⟩ := by
  have ht : ((n : ℤ) + 1).toNat = n + 1 := by omega
  rw [_request_with_retry, ht]
  have key := retryLoop_all_fail n r attempt es h (n + 1) 0 (by omega) (by omega)
  simpa [List.range_eq_range'] using key

/-- Witness for C2: `retry_times = 3`, `retry_interval = 1`, every attempt
failing with a connection error: four attempts, sleeps of 1, 2, 4 seconds
between them, final failure re-raised. -/
theorem C2_retry_exhaustion_witness :
    _request_with_retry ((3 : ℕ) : ℤ) 1 (fun _ => Except.error RequestError.connectionError)
      = ⟨RetryOutcome.requestError RequestError.connectionError, [1, 2, 4], 4⟩ := by
  have h := C2_retry_exhaustion 3 1 (fun _ => Except.error RequestError.connectionError)
    (fun _ => RequestError.connectionError) (fun i _ => rfl)
  rw [h]
  norm_num [List.range_succ]

/-- A response that `raise_for_status` accepts is accepted again when
re-validated. -/
theorem raise_for_status_of_ok {r0 resp : Response}
    (h : raise_for_status r0 = .ok resp) :
    raise_for_status resp = .ok resp := by
  unfold raise_for_status at h ⊢
  by_cases hc : 400 ≤ r0.status ∧ r0.status < 600
  · rw [if_pos hc] at h; cases h
  · rw [if_neg hc] at h
    cases h
    rw [if_neg hc]

/-- A successful loop iteration returns a response that passed
`raise_for_status`. -/
theorem attemptOnce_ok_validated {attempt : ℕ → Except RequestError Response}
    {i : ℕ} {resp : Response} (h : attemptOnce attempt i = .ok resp) :
    raise_for_status resp = .ok resp := by
  unfold attemptOnce at h
  cases hA : attempt i with
  | error e => rw [hA] at h; simp [Except.bind] at h
  | ok r0 =>
    rw [hA] at h
    simp only [Except.bind] at h
    exact raise_for_status_of_ok h

/-- Entered at attempt `i` with the matching remaining fuel, the retry loop
exits with a validated response or with the final attempt's
`RequestException` — never by falling off the loop. -/
theorem retryLoop_resolves (rt : ℤ) (r : ℚ)
    (attempt : ℕ → Except RequestError Response) :
    ∀ (fuel i : ℕ), (i : ℤ) + (fuel : ℤ) = rt + 1 → (i : ℤ) ≤ rt →
      (∃ resp, (retryLoop rt r attempt i fuel).outcome = .success resp ∧
        raise_for_status resp = .ok resp)
      ∨ (∃ e, (retryLoop rt r attempt i fuel).outcome = .requestError e ∧
          attemptOnce attempt rt.toNat = .error e) := by
  intro fuel
  induction fuel with
  | zero => intro i h1 h2; exfalso; omega
  | succ fuel ih =>
    intro i h1 h2
    cases hA : attemptOnce attempt i with
    | ok resp =>
      left
      exact ⟨resp, by simp [retryLoop, hA], attemptOnce_ok_validated hA⟩
    | error e =>
      by_cases hlt : (i : ℤ) < rt
      · have rec := ih (i + 1) (by push_cast; omega) (by push_cast at h1 ⊢; omega)
        simpa [retryLoop, hA, hlt] using rec
      · right
        have hieq : rt.toNat = i := by omega
        refine ⟨e, by simp [retryLoop, hA, hlt], ?_⟩
        rw [hieq]; exact hA

/-- C10: for `retry_times ≥ 0`, `_request_with_retry` always exits by
returning a response that passed status validation or by propagating the
final attempt's `RequestException`; the trailing `RuntimeError` after the
loop is unreachable. It is reached exactly when `retry_times < 0`, for which
`range(retry_times + 1)` is empty. -/
theorem C10_retry_terminates (rt : ℤ) (r : ℚ)
    (attempt : ℕ → Except RequestError Response) :
    (0 ≤ rt →
      ((∃ resp, (_request_with_retry rt r attempt).outcome = .success resp ∧
          raise_for_status resp = .ok resp)
        ∨ (∃ e, (_request_with_retry rt r attempt).outcome = .requestError e ∧
            attemptOnce attempt rt.toNat = .error e))
      ∧ (_request_with_retry rt r attempt).outcome ≠ .runtimeError)
    ∧ (rt < 0 → (_request_with_retry rt r attempt).outcome = .runtimeError) := by
  constructor
  · intro h0
    have main := retryLoop_resolves rt r attempt (rt + 1).toNat 0
      (by omega) (by omega)
    rw [show retryLoop rt r attempt 0 (rt + 1).toNat
        = _request_with_retry rt r attempt from rfl] at main
    refine ⟨main, ?_⟩
    rcases main with ⟨resp, hr, _⟩ | ⟨e, hr, _⟩ <;> rw [hr] <;> simp
  · intro hneg
    have hz : (rt + 1).toNat = 0 := by omega
    rw [_request_with_retry, hz]
    rfl

/-- Witness for C10: at `retry_times = 0` the loop never reaches the trailing
`RuntimeError`; at `retry_times = -1` it does. -/
theorem C10_retry_terminates_witness :
    ((0 : ℤ) ≤ 0 ∧
      (_request_with_retry 0 1 (fun _ => Except.ok ⟨200⟩)).outcome
        ≠ RetryOutcome.runtimeError)
    ∧ ((-1 : ℤ) < 0 ∧
      (_request_with_retry (-1) 1 (fun _ => Except.ok ⟨200⟩)).outcome
        = RetryOutcome.runtimeError) :=
  ⟨⟨by norm_num,
    ((C10_retry_terminates 0 1 (fun _ => Except.ok ⟨200⟩)).1 (by norm_num)).2⟩,
   ⟨by norm_num,
    (C10_retry_terminates (-1) 1 (fun _ => Except.ok ⟨200⟩)).2 (by norm_num)⟩⟩

/-- C8: `_load_by_extension` raises `ValueError` for every path whose
(lowercased) extension is neither `.json` nor `.toml`; for a supported file
whose parsed top-level value is not a mapping it returns an empty mapping
(with the warning logged), rather than raising. -/
theorem C8_load_dispatch (env : ParserEnv) (p : PyPath) :
    ((pyLower p.suffix ≠ ".json" ∧ pyLower p.suffix ≠ ".toml") →
      _load_by_extension env p = .error
        (.valueError ("Unsupported config file extension: " ++ pyLower p.suffix)))
    ∧ (pyLower p.suffix = ".json" → env.parseJson p = .nondict →
        _load_by_extension env p = .ok ([], true))
    ∧ (pyLower p.suffix = ".toml" → env.parseToml p = .nondict →
        _load_by_extension env p = .ok ([], true)) := by
  refine ⟨?_, ?_, ?_⟩
  · rintro ⟨h1, h2⟩
    simp [_load_by_extension, h1, h2]
  · intro h1 h2
    simp [_load_by_extension, h1, h2, _validate_dict]
  · intro h1 h2
    have hj : pyLower p.suffix ≠ ".json" := by rw [h1]; decide
    simp [_load_by_extension, h1, hj, h2, _validate_dict]

/-- A parser environment in which every document parses to a non-mapping
top-level value. -/
def C8env : ParserEnv :=
  ⟨fun _ => .nondict, fun _ => .nondict⟩

/-- Witness for C8: a `.yaml` path raises `ValueError`; a `.json` path whose
top-level value is not a mapping loads as the empty mapping with a logged
warning. -/
theorem C8_load_dispatch_witness :
    _load_by_extension C8env ⟨".yaml"⟩
      = Except.error (LoadError.valueError
          ("Unsupported config file extension: " ++ pyLower ".yaml"))
    ∧ _load_by_extension C8env ⟨".json"⟩ = Except.ok ([], true) :=
  ⟨(C8_load_dispatch C8env ⟨".yaml"⟩).1 (by decide),
   (C8_load_dispatch C8env ⟨".json"⟩).2.1 (by decide) rfl⟩

/-- Filtering an association list to a key set does not change lookups of
keys inside the set. -/
theorem lookupKV_filter (keys : List String) (config : RawMap) (k : String)
    (hk : k ∈ keys) :
    lookupKV (config.filter (fun kv => decide (kv.1 ∈ keys))) k
      = lookupKV config k := by
  induction config with
  | nil => rfl
  | cons kv rest ih =>
    rw [List.filter_cons]
    by_cases h1 : kv.1 = k
    · rw [if_pos (by simp [h1, hk])]
      unfold lookupKV
      rw [List.find?_cons_of_pos _ (by simp [h1]),
        List.find?_cons_of_pos _ (by simp [h1])]
    · by_cases h2 : kv.1 ∈ keys
      · rw [if_pos (by simpa using h2)]
        unfold lookupKV at ih ⊢
        rw [List.find?_cons_of_neg _ (by simp [h1]),
          List.find?_cons_of_neg _ (by simp [h1])]
        exact ih
      · rw [if_neg (by simpa using h2), ih]
        unfold lookupKV
        rw [List.find?_cons_of_neg _ (by simp [h1])]

/-- Looking up a declared field in a per-field-built record yields the
built value of that field (field names assumed distinct, as they are for a
dataclass). -/
theorem lookupKV_map_fields (fl : List (String × Value)) (g : String → Value → Value)
    (k : String) (d : Value) (hnd : (fl.map Prod.fst).Nodup) (hmem : (k, d) ∈ fl) :
    lookupKV (fl.map (fun fd => (fd.1, g fd.1 fd.2))) k = some (g k d) := by
  induction fl with
  | nil => cases hmem
  | cons fd rest ih =>
    rw [List.map_cons]
    rw [List.map_cons, List.nodup_cons] at hnd
    by_cases h1 : fd.1 = k
    · unfold lookupKV
      rw [List.find?_cons_of_pos _ (by simp [h1])]
      rcases List.mem_cons.mp hmem with heq | hmem2
      · rw [← heq]; rfl
      · exfalso
        exact hnd.1 (h1 ▸ List.mem_map.mpr ⟨(k, d), hmem2, rfl⟩)
    · have hmem2 : (k, d) ∈ rest := by
        rcases List.mem_cons.mp hmem with heq | hmem2
        · exact absurd (congrArg Prod.fst heq.symm) h1
        · exact hmem2
      unfold lookupKV at ih ⊢
      rw [List.find?_cons_of_neg _ (by simp [h1])]
      exact ih hnd.2 hmem2

/-- Looking up a declared field of a constructed dataclass record yields the
supplied value (or the declared default when absent), with the class's
post-construction normalization applied. -/
theorem lookupKV_mkDataclass (spec : DataclassSpec) (args : RawMap)
    (k : String) (d : Value) (hnd : (validKeys spec).Nodup)
    (hmem : (k, d) ∈ spec.fieldsList) :
    lookupKV (mkDataclass spec args) k
      = some (applyStrip spec ((lookupKV args k).getD d)) :=
  lookupKV_map_fields spec.fieldsList
    (fun key dflt => applyStrip spec ((lookupKV args key).getD dflt)) k d hnd hmem

/-- The keys of a constructed dataclass record are exactly the class's
declared field names. -/
theorem mkDataclass_keys (spec : DataclassSpec) (args : RawMap) :
    (mkDataclass spec args).map Prod.fst = validKeys spec := by
  simp [mkDataclass, validKeys, List.map_map, Function.comp]

/-- Every value stored in a constructed dataclass record is the
normalization of a supplied-or-default value. -/
theorem mkDataclass_mem {spec : DataclassSpec} {args : RawMap}
    {kv : String × Value} (h : kv ∈ mkDataclass spec args) :
    ∃ fd ∈ spec.fieldsList,
      kv = (fd.1, applyStrip spec ((lookupKV args fd.1).getD fd.2)) := by
  rw [mkDataclass] at h
  obtain ⟨fd, hfd, heq⟩ := List.mem_map.mp h
  exact ⟨fd, hfd, heq.symm⟩

/-- C6: a typed config built from a raw mapping contains only known-field
entries; each known field holds its supplied value (with the class's
`__post_init__` whitespace normalization applied) or its declared default
when absent; exactly one warning is emitted, enumerating precisely the
unknown key names, and none when there are none. -/
theorem C6_unknown_key_filtering (spec : DataclassSpec) (args : RawMap)
    (hnd : (validKeys spec).Nodup) :
    ((buildConfig spec args).1.map Prod.fst = validKeys spec)
    ∧ (∀ k d, (k, d) ∈ spec.fieldsList →
        lookupKV (buildConfig spec args).1 k
          = some (applyStrip spec ((lookupKV args k).getD d)))
    ∧ ((buildConfig spec args).2 = [] ↔
        ∀ k ∈ args.map Prod.fst, k ∈ validKeys spec)
    ∧ (∀ w ∈ (buildConfig spec args).2, w.cls = spec.name ∧
        ∀ k, (k ∈ w.unknownKeys ↔ k ∈ args.map Prod.fst ∧ k ∉ validKeys spec))
    ∧ (buildConfig spec args).2.length ≤ 1 := by
  refine ⟨mkDataclass_keys spec _, ?_, ?_, ?_, ?_⟩
  · intro k d hmem
    have hk : k ∈ validKeys spec :=
      List.mem_map.mpr ⟨(k, d), hmem, rfl⟩
    rw [show (buildConfig spec args).1
        = mkDataclass spec (_filter_dataclass_args spec args).1 from rfl]
    rw [lookupKV_mkDataclass spec _ k d hnd hmem]
    rw [show (_filter_dataclass_args spec args).1
        = args.filter (fun kv => decide (kv.1 ∈ validKeys spec)) from rfl]
    rw [lookupKV_filter _ _ _ hk]
  · simp only [buildConfig, _filter_dataclass_args]
    constructor
    · intro hws k hk
      by_contra hkv
      have hke : k ∈ ((args.map Prod.fst).filter
          (fun k2 => decide (k2 ∉ validKeys spec))).dedup := by
        rw [List.mem_dedup, List.mem_filter]
        exact ⟨hk, by simpa using hkv⟩
      split at hws
      · next hempty =>
        rw [List.isEmpty_iff] at hempty
        rw [hempty] at hke
        cases hke
      · cases hws
    · intro hall
      have hfe : ((args.map Prod.fst).filter
          (fun k2 => decide (k2 ∉ validKeys spec))) = [] := by
        rw [List.filter_eq_nil_iff]
        intro a ha
        simpa using hall a ha
      simp [hfe]
      intro x v hxv
      exact hall x (List.mem_map.mpr ⟨(x, v), hxv, rfl⟩)
  · intro w hw
    simp only [buildConfig, _filter_dataclass_args] at hw
    split at hw
    · cases hw
    · rcases List.mem_singleton.mp hw with rfl
      refine ⟨rfl, ?_⟩
      intro k
      rw [List.mem_dedup, List.mem_filter]
      simp
  · simp only [buildConfig, _filter_dataclass_args]
    split <;> simp

/-- A raw `[global.requests]` sub-mapping with one known key (whose string
value carries surrounding whitespace) and one unknown key. -/
def C6args : RawMap :=
  [("user_agent", Value.vstr " ua "), ("bogus", Value.vint 1)]

/-- Witness for C6: on `C6args`, the `RequesterConfig` field `user_agent`
holds the normalized supplied value. -/
theorem C6_unknown_key_filtering_witness :
    (validKeys requesterSpec).Nodup
    ∧ lookupKV (buildConfig requesterSpec C6args).1 "user_agent"
        = some (applyStrip requesterSpec
            ((lookupKV C6args "user_agent").getD (Value.vstr ""))) :=
  ⟨by decide,
   (C6_unknown_key_filtering requesterSpec C6args (by decide)).2.1
     "user_agent" (Value.vstr "") (by decide)⟩

/-- A value that `_auto_strip_strings` turns into a string is the stripped
image of some string. -/
theorem stripValue_eq_vstr {v : Value} {s : String}
    (h : stripValue v = .vstr s) : ∃ s0, s = pyStrip s0 := by
  cases v with
  | vstr s0 =>
    simp only [stripValue] at h
    exact ⟨s0, (Value.vstr.inj h).symm⟩
  | vint n => cases h
  | vnum q => cases h
  | vbool b => cases h

/-- `RequesterConfig.__post_init__` runs `_auto_strip_strings`, so its
normalization is exactly `stripValue`. -/
theorem applyStrip_requester (v : Value) :
    applyStrip requesterSpec v = stripValue v := rfl

/-- C9 counterexample: the claim "retry count ≥ 0 for every RequesterConfig"
is false — `RequesterConfig(retry_times=-1)` constructs without any
validation and stores a negative retry count. -/
theorem C9_counterexample :
    lookupKV (RequesterConfig [("retry_times", Value.vint (-1))]) "retry_times"
      = some (Value.vint (-1)) ∧ (-1 : ℤ) < 0 := by
  refine ⟨?_, by norm_num⟩
  decide

/-- C9 (amended): after construction, every string-valued field of a
`RequesterConfig` is the whitespace-stripped image of its source value, and
`retry_times` is exactly the supplied value (the default `3` when absent) —
no nonnegativity validation is performed, so `retry_times ≥ 0` holds iff the
supplied value is nonnegative. -/
theorem C9_strings_trimmed_retry_passthrough (args : RawMap) :
    (∀ k s, lookupKV (RequesterConfig args) k = some (Value.vstr s) →
      ∃ s0, s = pyStrip s0)
    ∧ (∀ n : ℤ,
        lookupKV (RequesterConfig args) "retry_times" = some (Value.vint n) →
        (lookupKV args "retry_times" = some (Value.vint n)
          ∨ (lookupKV args "retry_times" = none ∧ n = 3))) := by
  constructor
  · intro k s hks
    rw [show RequesterConfig args = mkDataclass requesterSpec args from rfl,
      lookupKV] at hks
    cases hf : (mkDataclass requesterSpec args).find? (fun kv => decide (kv.1 = k)) with
    | none => rw [hf] at hks; cases hks
    | some kv =>
      rw [hf, Option.map_some'] at hks
      have hkv : kv ∈ mkDataclass requesterSpec args := List.mem_of_find?_eq_some hf
      obtain ⟨fd, _, rfl⟩ := mkDataclass_mem hkv
      have hval : applyStrip requesterSpec ((lookupKV args fd.1).getD fd.2)
          = .vstr s := Option.some.inj hks
      rw [applyStrip_requester] at hval
      exact stripValue_eq_vstr hval
  · intro n hn
    have hmem : ("retry_times", Value.vint 3) ∈ requesterSpec.fieldsList := by
      decide
    have h2 := lookupKV_mkDataclass requesterSpec args "retry_times"
      (Value.vint 3) (by decide) hmem
    rw [show RequesterConfig args = mkDataclass requesterSpec args from rfl,
      h2] at hn
    cases hl : lookupKV args "retry_times" with
    | none =>
      right
      rw [hl] at hn
      refine ⟨rfl, ?_⟩
      have : Value.vint 3 = Value.vint n := Option.some.inj hn
      exact (Value.vint.inj this).symm
    | some v =>
      left
      rw [hl] at hn
      have hv : stripValue v = .vint n := by
        have := Option.some.inj hn
        rwa [applyStrip_requester] at this
      cases v with
      | vstr s0 => simp [stripValue] at hv
      | vint m =>
        simp only [stripValue] at hv
        exact congrArg some hv
      | vnum q => simp [stripValue] at hv
      | vbool b => simp [stripValue] at hv

/-- Witness for C9's amended theorem: with `retry_times = 2` supplied, the
constructed record indeed reflects the supplied value. -/
theorem C9_strings_trimmed_retry_passthrough_witness :
    lookupKV [("user_agent", Value.vstr " ua "), ("retry_times", Value.vint 2)]
        "retry_times" = some (Value.vint 2)
    ∨ (lookupKV [("user_agent", Value.vstr " ua "), ("retry_times", Value.vint 2)]
        "retry_times" = none ∧ (2 : ℤ) = 3) :=
  (C9_strings_trimmed_retry_passthrough
    [("user_agent", Value.vstr " ua "), ("retry_times", Value.vint 2)]).2 2
    (by decide)
